import Mathlib

/-!
Shallow embedding of the blip plan model (src/unnamed/part_000, package blip)
and the replication-lag collector (src/metrics/repl.lag/lag.go, package repllag).

Modelling conventions:
* Go maps iterated by `range` become association lists `List (String × α)`;
  one list value fixes one iteration order of the unordered Go map.
* Go maps used as lookup tables with zero-value defaults (`c.lagWriterIn`,
  `c.dropNotAReplica`, ...) become total functions `String → α` returning the
  Go zero value for absent keys, updated pointwise.
* Database and collaborator I/O is an explicit environment value `DBEnv`:
  each query the code can issue has a field giving its outcome.
* `panic` in Go becomes the `CollectResult.panicked` constructor.
* Helpers that live in this repository but outside src/ (blip.Bool,
  sqlutil.CleanObjectName, sqlutil.Float64, heartbeat.Reader,
  blip.DEFAULT_HEARTBEAT_TABLE, the interpolation substitutions, and the
  collectPFSv2 variant) are modelled from the spec; each carries a doc
  comment saying so.
-/

namespace Blip

/-- Domain (part_000 lines 37-42): one metric domain with free-form options
and an optional explicit metric allow-list. -/
structure Domain where
  name : String
  options : List (String × String)
  metrics : List String
deriving DecidableEq, Repr

/-- Level (part_000 lines 30-35): one collection frequency of a plan; the
collect map is keyed by domain name. -/
structure Level where
  name : String
  freq : String
  collect : List (String × Domain)
deriving DecidableEq, Repr

/-- Plan (part_000 lines 3-28): named collection of levels keyed by level
name, plus the monitor scoping id. The list fixes one iteration order of the
Go map `Levels`. -/
structure Plan where
  name : String
  levels : List (String × Level)
  monitorId : String
deriving DecidableEq, Repr

/-- Association-list lookup, the embedding of a Go map read `m[k]` returning
`(value, ok)`. -/
def lookupStr {α : Type} (k : String) : List (String × α) → Option α
  | [] => none
  | (k', v) :: rest => if k = k' then some v else lookupStr k rest

/-- Go map read with the string zero value: `m[k]` is `""` for absent keys. -/
def optGet (opts : List (String × String)) (k : String) : String :=
  (lookupStr k opts).getD ""

/-- Pointwise update of a total-function map, the embedding of `m[k] = v`. -/
def setKey {α : Type} (m : String → α) (k : String) (v : α) : String → α :=
  fun x => if x = k then v else m x

/-- Metric type (blip.COUNTER / blip.GAUGE). -/
inductive MetricType
  | counter
  | gauge
deriving DecidableEq, Repr

/-- blip.MetricValue: name, type, value, and optional provenance metadata.
float64 values are modelled as rationals. -/
structure MetricValue where
  name : String
  typ : MetricType
  value : Rat
  meta : List (String × String)
deriving DecidableEq, Repr

/-- Constants of src/metrics/repl.lag/lag.go lines 17-31. -/
def DOMAIN : String := "repl.lag"

def OPT_HEARTBEAT_SOURCE_ID : String := "source-id"

def OPT_HEARTBEAT_SOURCE_ROLE : String := "source-role"

def OPT_HEARTBEAT_TABLE : String := "table"

def OPT_WRITER : String := "writer"

def OPT_REPL_CHECK : String := "repl-check"

def OPT_REPORT_NO_HEARTBEAT : String := "report-no-heartbeat"

def OPT_REPORT_NOT_A_REPLICA : String := "report-not-a-replica"

def OPT_RENAME_DEFAULT_REPLICATION_CHANNEL : String := "rename-default-replication-channel"

def OPT_NETWORK_LATENCY : String := "network-latency"

def LAG_WRITER_BLIP : String := "blip"

def LAG_WRITER_PFS : String := "pfs"

/-- Modelled from the spec: blip.DEFAULT_HEARTBEAT_TABLE is declared outside
src/; the spec only says the table option has a default when unset. -/
def DEFAULT_HEARTBEAT_TABLE : String := "blip.heartbeat"

/-- Modelled from the spec: blip.Bool (outside src/) decides option
truthiness; the spec's enumerated option values are `yes` and `no` with
default `no`, so truth is exactly the value `yes`. -/
def blipBool (s : String) : Bool := s = "yes"

/-- Digit-string to number; `none` when empty or any non-digit appears. -/
def parseDigits (cs : List Char) : Option Nat :=
  if cs.isEmpty then none
  else
    cs.foldl
      (fun acc c =>
        match acc with
        | none => none
        | some n => if c.isDigit then some (n * 10 + (c.toNat - 48)) else none)
      (some 0)

/-- Models strconv.Atoi (Go standard library): an optional sign followed by
one or more digits, anything else is an error (`none`). -/
def goAtoi (s : String) : Option Int :=
  match s.data with
  | '-' :: cs => (parseDigits cs).map (fun n => -(n : Int))
  | '+' :: cs => (parseDigits cs).map (fun n => (n : Int))
  | cs => (parseDigits cs).map (fun n => (n : Int))

/-- Modelled from the spec: sqlutil.Float64 (outside src/) converts a scalar
query result to a number; here an optional sign, digits, and an optional
decimal fraction. -/
def sqlutilFloat64 (s : String) : Option Rat :=
  let core : Bool → List Char → Option Rat := fun neg cs =>
    match cs.span (fun c => c ≠ '.') with
    | (intPart, []) =>
      (parseDigits intPart).map (fun n => if neg then -(n : Rat) else (n : Rat))
    | (intPart, _dot :: fracPart) =>
      match parseDigits intPart, parseDigits fracPart with
      | some n, some m =>
        let mag : Rat := (n : Rat) + (m : Rat) / ((10 : Rat) ^ fracPart.length)
        some (if neg then -mag else mag)
      | _, _ => none
  match s.data with
  | '-' :: cs => core true cs
  | '+' :: cs => core false cs
  | cs => core false cs

/-- Modelled from the spec: sqlutil.CleanObjectName (outside src/) sanitizes
the repl-check value "as an identifier"; here: keep identifier characters,
drop everything else. -/
def cleanObjectName (s : String) : String :=
  String.mk (s.data.filter (fun c => c.isAlphanum || c = '_' || c = '$' || c = '.'))

/-- The state of the heartbeat reader built by prepareBlip
(heartbeat.NewBlipReader args, lag.go lines 269-280). `some` means the
reader exists and its background task was started (`go Start()`). -/
structure ReaderState where
  monitorId : String
  table : String
  sourceId : String
  sourceRole : String
  replCheck : String
  networkLatencyMs : Int
deriving DecidableEq, Repr

/-- A sample from the heartbeat-sampling collaborator (heartbeat.Reader.Lag,
outside src/; interface from spec section 6): replica flag, milliseconds
(sentinel -1 = no heartbeat observed yet), and the reporting source id. -/
structure HeartbeatSample where
  replica : Bool
  milliseconds : Int
  sourceId : String
deriving DecidableEq, Repr

/-- The external world: outcomes of the queries the collector can issue.
`replCheckQuery v` is the outcome of `SELECT @@v`; `lagQuery` the outcome of
MySQL8LagQuery (`none` inside `ok` = SQL NULL / invalid NullString);
`readerLag` the current sample of the heartbeat reader.
`heartbeatTableExists` records whether the configured heartbeat table exists
on the target; no code under src/ ever consults it during preparation (the
reader only touches the table from its background task after Start), it is
here so that table-existence hypotheses can be stated. -/
structure DBEnv where
  replCheckQuery : String → Except String Int
  lagQuery : Except String (Option String)
  readerLag : Except String HeartbeatSample
  heartbeatTableExists : Bool

/-- Collector state (lag.go lines 60-68). Go maps with zero-value reads
become total functions; absent keys give `""` / `false`. -/
structure LagState where
  lagWriterIn : String → String
  dropNoHeartbeat : String → Bool
  dropNotAReplica : String → Bool
  renameDefaultReplicationChannel : String → Bool
  replCheck : String
  lagReader : Option ReaderState

/-- NewLag (lag.go lines 72-80): empty maps, zero-valued replCheck, no
reader. -/
def NewLag : LagState :=
  { lagWriterIn := fun _ => ""
    dropNoHeartbeat := fun _ => false
    dropNotAReplica := fun _ => false
    renameDefaultReplicationChannel := fun _ => false
    replCheck := ""
    lagReader := none }

/-- A background sampler is running exactly when the reader was created and
started. -/
def samplerRunning (c : LagState) : Bool :=
  c.lagReader.isSome

/-- The cleanup value Prepare returns: Go's `var cleanup func()` is either
nil or the closure that stops the shared reader (lag.go lines 284-288). -/
inductive CleanupFn
  | nil
  | stopReader
deriving DecidableEq, Repr

/-- collectPFS (lag.go lines 313-367): optional replica check via
`SELECT @@replCheck`, then the performance-schema lag query, with the
not-a-replica drop/sentinel policy in `defaultLag`. -/
def collectPFS (c : LagState) (levelName : String) (env : DBEnv) :
    Except String (List MetricValue) :=
  let defaultLag : List MetricValue :=
    if c.dropNotAReplica levelName then []
    else [{ name := "current", typ := MetricType.gauge, value := -1, meta := [] }]
  let isReplStep : Except String Int :=
    if c.replCheck ≠ "" then
      match env.replCheckQuery c.replCheck with
      | Except.error e =>
        Except.error ("checking if instance is replica failed, please check value of "
          ++ OPT_REPL_CHECK ++ ". Err: " ++ e)
      | Except.ok n => Except.ok n
    else Except.ok 1
  match isReplStep with
  | Except.error e => Except.error e
  | Except.ok isRepl =>
    if isRepl = 0 then Except.ok defaultLag
    else
      match env.lagQuery with
      | Except.error e =>
        Except.error ("could not check replication lag, check that this is a MySQL 8.0 replica, and that performance_schema is enabled. Err: " ++ e)
      | Except.ok none =>
        if c.replCheck = "" then Except.ok defaultLag
        else
          Except.error "cannot determine replica lag because performance_schema.replication_applier_status_by_worker returned an invalid value (expected a positive integer value)"
      | Except.ok (some s) =>
        match sqlutilFloat64 s with
        | none =>
          Except.error ("couldn't convert replica lag from performance schema into float. Lag: " ++ s)
        | some f =>
          Except.ok [{ name := "current", typ := MetricType.gauge, value := f, meta := [] }]

/-- Modelled from the spec: collectPFSv2 is called by Prepare and Collect
(lag.go lines 197, 207, 238) but is not under src/; the spec (design notes)
treats the two performance-schema variants as the same strategy with the
section 4.4 semantics, which is what collectPFS implements, so the v2
variant is given the same semantics. -/
def collectPFSv2 (c : LagState) (levelName : String) (env : DBEnv) :
    Except String (List MetricValue) :=
  collectPFS c levelName env

/-- collectBlip (lag.go lines 292-311): read the shared reader's sample and
apply the not-a-replica / no-heartbeat drop policy; the metric value is the
sample's milliseconds with the source id as provenance. -/
def collectBlip (c : LagState) (levelName : String) (env : DBEnv) :
    Except String (List MetricValue) :=
  match env.readerLag with
  | Except.error e => Except.error e
  | Except.ok lag =>
    let m : MetricValue :=
      { name := "current", typ := MetricType.gauge,
        value := (lag.milliseconds : Rat), meta := [("source", lag.sourceId)] }
    if lag.replica = false then
      if c.dropNotAReplica levelName then Except.ok [] else Except.ok [m]
    else if lag.milliseconds = -1 ∧ c.dropNoHeartbeat levelName then Except.ok []
    else Except.ok [m]

/-- prepareBlip (lag.go lines 248-290): construct and start the single
shared heartbeat reader, or return a nil cleanup when a reader already
exists. Only the creation path records the level's report-no-heartbeat flag.
The error component mirrors the Go signature; the body never fills it. -/
def prepareBlip (c : LagState) (levelName monitorId planName : String)
    (options : List (String × String)) : LagState × CleanupFn × Option String :=
  if c.lagReader.isSome then (c, CleanupFn.nil, none)
  else
    let c1 := { c with
      dropNoHeartbeat := setKey c.dropNoHeartbeat levelName
        (!blipBool (optGet options OPT_REPORT_NO_HEARTBEAT)) }
    let table :=
      if optGet options OPT_HEARTBEAT_TABLE = "" then DEFAULT_HEARTBEAT_TABLE
      else optGet options OPT_HEARTBEAT_TABLE
    let netLatencyMs : Int :=
      match lookupStr OPT_NETWORK_LATENCY options with
      | none => 50
      | some s =>
        match goAtoi s with
        | none => 50
        | some n => n
    let c2 := { c1 with
      lagReader := some
        { monitorId := monitorId
          table := table
          sourceId := optGet options OPT_HEARTBEAT_SOURCE_ID
          sourceRole := optGet options OPT_HEARTBEAT_SOURCE_ROLE
          replCheck := c.replCheck
          networkLatencyMs := netLatencyMs }
      lagWriterIn := setKey c1.lagWriterIn levelName LAG_WRITER_BLIP }
    (c2, CleanupFn.stopReader, none)

/-- The switch of Prepare's loop body (lag.go lines 194-221), for one
qualifying level: resolve the writer, probing for pfs/auto and building the
reader for blip/auto fallback. Returns the new state, the new value of the
loop's `cleanup` variable, and the resolved writer, or the preparation
error. The string patterns are the source's LAG_WRITER_PFS / LAG_WRITER_BLIP
constants and the `"auto", ""` pair. -/
def prepareLevelStep (c : LagState) (levelName monitorId planName : String)
    (dom : Domain) (env : DBEnv) (cleanup : CleanupFn) :
    Except String (LagState × CleanupFn × String) :=
  match optGet dom.options OPT_WRITER with
  | "pfs" =>
    match collectPFSv2 c levelName env with
    | Except.error e => Except.error e
    | Except.ok _ => Except.ok (c, cleanup, LAG_WRITER_PFS)
  | "blip" =>
    match prepareBlip c levelName monitorId planName dom.options with
    | (_, _, some e) => Except.error e
    | (c', cl', none) => Except.ok (c', cl', LAG_WRITER_BLIP)
  | "auto" | "" =>
    match collectPFSv2 c levelName env with
    | Except.ok _ => Except.ok (c, cleanup, LAG_WRITER_PFS)
    | Except.error _ =>
      match prepareBlip c levelName monitorId planName dom.options with
      | (c', cl', none) => Except.ok (c', cl', LAG_WRITER_BLIP)
      | (_, _, some _) =>
        Except.error ("failed to auto-detect source, set " ++ OPT_WRITER ++ " manually")
  | w => Except.error ("invalid lag writer: " ++ w ++ "; valid values: auto, pfs, blip")

/-- The outcome of Prepare: final collector state, the returned cleanup, and
the returned error (`none` on success, in which case cleanup is the loop's
cleanup variable; error returns hand back a nil cleanup, matching
`return nil, err`). -/
structure PrepOut where
  state : LagState
  cleanup : CleanupFn
  err : Option String

/-- The level loop of Prepare (lag.go lines 173-228). `configured` threads
the loop-local variable of the same name: it starts `""` and — exactly as in
the source — is never assigned, so its conflict branch (lines 185-191) is
unreachable. After a successful switch the level records its resolved
writer, its drop/rename flags, and overwrites the shared replCheck
(lines 223-227). -/
def prepareLoop (monitorId planName : String) (env : DBEnv) :
    List (String × Level) → LagState → String → CleanupFn → PrepOut
  | [], c, _, cleanup => { state := c, cleanup := cleanup, err := none }
  | (levelName, level) :: rest, c, configured, cleanup =>
    match lookupStr DOMAIN level.collect with
    | none => prepareLoop monitorId planName env rest c configured cleanup
    | some dom =>
      let writer := optGet dom.options OPT_WRITER
      if configured ≠ "" then
        if configured ≠ writer then
          { state := c, cleanup := CleanupFn.nil,
            err := some ("different writer configuration: " ++ configured ++ " != " ++ writer) }
        else
          prepareLoop monitorId planName env rest
            { c with lagWriterIn := setKey c.lagWriterIn levelName writer }
            configured cleanup
      else
        match prepareLevelStep c levelName monitorId planName dom env cleanup with
        | Except.error e => { state := c, cleanup := CleanupFn.nil, err := some e }
        | Except.ok (c', cleanup', w) =>
          prepareLoop monitorId planName env rest
            { c' with
              lagWriterIn := setKey c'.lagWriterIn levelName w
              dropNotAReplica := setKey c'.dropNotAReplica levelName
                (!blipBool (optGet dom.options OPT_REPORT_NOT_A_REPLICA))
              renameDefaultReplicationChannel :=
                setKey c'.renameDefaultReplicationChannel levelName
                  (!blipBool (optGet dom.options OPT_RENAME_DEFAULT_REPLICATION_CHANNEL))
              replCheck := cleanObjectName (optGet dom.options OPT_REPL_CHECK) }
            configured cleanup'

/-- Prepare (lag.go lines 168-231). -/
def Prepare (c : LagState) (plan : Plan) (env : DBEnv) : PrepOut :=
  prepareLoop plan.monitorId plan.name env plan.levels c "" CleanupFn.nil

/-- The outcome of Collect: metrics, a returned error, or a Go panic. -/
inductive CollectResult
  | ok (metrics : List MetricValue)
  | err (msg : String)
  | panicked (msg : String)
deriving DecidableEq, Repr

/-- Adapt a strategy result to a Collect outcome. -/
def ofExcept : Except String (List MetricValue) → CollectResult
  | Except.ok ms => CollectResult.ok ms
  | Except.error e => CollectResult.err e

/-- Collect (lag.go lines 233-242): dispatch on the level's recorded writer;
any other value — including the zero value for levels Prepare never
recorded — panics. -/
def Collect (c : LagState) (levelName : String) (env : DBEnv) : CollectResult :=
  match c.lagWriterIn levelName with
  | "blip" => ofExcept (collectBlip c levelName env)
  | "pfs" => ofExcept (collectPFSv2 c levelName env)
  | w =>
    CollectResult.panicked
      ("invalid lag writer in Collect " ++ w ++ " in level " ++ levelName)

/-- One row of performance_schema joined as in MySQL8LagQuery (lag.go lines
36-55), reduced to the quantities the query computes from it:
the applier latency TIMESTAMPDIFF(MICROSECOND, original commit, end
apply)/1000, the three conditions of the queue-latency CASE, the queue age
TIMESTAMPDIFF(MICROSECOND, immediate commit, NOW(3))/1000, and the age in
seconds of the last queued transaction's original commit timestamp. -/
structure PfsWorkerRow where
  applierLatencyMs : Int
  lastQueuedAnonymous : Bool
  lastAppliedAnonymous : Bool
  gtidQueuedMinusAppliedEmpty : Bool
  immediateCommitAgeMs : Int
  lastQueuedAgeSec : Nat
deriving DecidableEq, Repr

/-- The queue_latency CASE of MySQL8LagQuery: 0 when either side is
ANONYMOUS or the GTID sets are aligned, else the time since the immediate
commit timestamp. -/
def queueLatencyMs (r : PfsWorkerRow) : Int :=
  if r.lastQueuedAnonymous || r.lastAppliedAnonymous || r.gtidQueuedMinusAppliedEmpty then 0
  else r.immediateCommitAgeMs

/-- TIMESTAMPDIFF(MINUTE, ts, NOW()) for a timestamp ageSec seconds in the
past: the whole-minute difference. -/
def timestampdiffMinute (ageSec : Nat) : Nat :=
  ageSec / 60

/-- The final SELECT of MySQL8LagQuery: lagMs is 0 when the channel is IDLE
(whole-minute age of the last queued transaction exceeds 1), else
GREATEST(applier latency, queue latency). -/
def mySQL8LagMs (r : PfsWorkerRow) : Int :=
  if timestampdiffMinute r.lastQueuedAgeSec > 1 then 0
  else max r.applierLatencyMs (queueLatencyMs r)

/-- InterpolateEnvVars (part_000 lines 60-68): rewrite every option value of
every domain of every level through the environment substitution. The
substitution interpolateEnv lives outside src/ and is taken as the
parameter f. -/
def Plan.InterpolateEnvVars (f : String → String) (p : Plan) : Plan :=
  { p with
    levels := p.levels.map fun lv =>
      (lv.1,
        { lv.2 with
          collect := lv.2.collect.map fun dm =>
            (dm.1,
              { dm.2 with
                options := dm.2.options.map fun kv => (kv.1, f kv.2) }) }) }

/-- InterpolateMonitor (part_000 lines 70-78): the same traversal through
the monitor-scoped substitution mon.interpolateMon, taken as the
parameter g. -/
def Plan.InterpolateMonitor (g : String → String) (p : Plan) : Plan :=
  { p with
    levels := p.levels.map fun lv =>
      (lv.1,
        { lv.2 with
          collect := lv.2.collect.map fun dm =>
            (dm.1,
              { dm.2 with
                options := dm.2.options.map fun kv => (kv.1, g kv.2) }) }) }

/-- An environment in which the probe cannot succeed whatever the current
state: both queries fail. -/
def probeAlwaysFails (env : DBEnv) : Prop :=
  (∀ s, ∃ e, env.replCheckQuery s = Except.error e)
  ∧ (∃ e, env.lagQuery = Except.error e)

/-! Concrete fixtures used by the evaluation theorems and witnesses. -/

/-- A level collecting the repl.lag domain with the given options. -/
def replLagLevel (nm fr : String) (opts : List (String × String)) : Level :=
  { name := nm, freq := fr,
    collect := [(DOMAIN, { name := DOMAIN, options := opts, metrics := [] })] }

/-- Target where the performance-schema strategy works and the heartbeat
reader sees a healthy replica. -/
def envPfsOk : DBEnv :=
  { replCheckQuery := fun _ => Except.ok 1
    lagQuery := Except.ok (some "100")
    readerLag := Except.ok { replica := true, milliseconds := 250, sourceId := "s1" }
    heartbeatTableExists := true }

/-- Target where every query fails and no heartbeat table exists. -/
def envAllFail : DBEnv :=
  { replCheckQuery := fun _ => Except.error "connection refused"
    lagQuery := Except.error "connection refused"
    readerLag := Except.error "connection refused"
    heartbeatTableExists := false }

/-- The heartbeat sample of a non-replica reporting 7 ms. -/
def sampleNotReplica : HeartbeatSample :=
  { replica := false, milliseconds := 7, sourceId := "s1" }

/-- Target whose heartbeat reader reports a non-replica sample. -/
def envNotReplica : DBEnv :=
  { replCheckQuery := fun _ => Except.ok 1
    lagQuery := Except.ok (some "100")
    readerLag := Except.ok sampleNotReplica
    heartbeatTableExists := true }

/-- Target where the replica check reports 0 (not a replica). -/
def envRepl0 : DBEnv :=
  { replCheckQuery := fun _ => Except.ok 0
    lagQuery := Except.ok (some "100")
    readerLag := Except.ok sampleNotReplica
    heartbeatTableExists := true }

/-- Target where the replica check reports 1 but the lag query returns
SQL NULL. -/
def envNullLag : DBEnv :=
  { replCheckQuery := fun _ => Except.ok 1
    lagQuery := Except.ok none
    readerLag := Except.ok sampleNotReplica
    heartbeatTableExists := true }

/-- Target where checking variable y reports not-a-replica while any other
variable reports replica, and the lag query returns 42. -/
def envReplXY : DBEnv :=
  { replCheckQuery := fun v => if v = "y" then Except.ok 0 else Except.ok 1
    lagQuery := Except.ok (some "42")
    readerLag := Except.ok { replica := true, milliseconds := 250, sourceId := "s1" }
    heartbeatTableExists := true }

/-- Two levels whose explicit writers differ: a wants pfs, b wants blip. -/
def planMixedWriters : Plan :=
  { name := "p"
    levels := [("a", replLagLevel "a" "5s" [("writer", "pfs")]),
               ("b", replLagLevel "b" "20s" [("writer", "blip")])]
    monitorId := "m1" }

/-- Two levels that both request the blip writer, with distinct heartbeat
tables so the single created reader is attributable to level a. -/
def planTwoBlip : Plan :=
  { name := "p"
    levels := [("a", replLagLevel "a" "5s" [("writer", "blip"), ("table", "t1")]),
               ("b", replLagLevel "b" "20s" [("writer", "blip"), ("table", "t2")])]
    monitorId := "m1" }

/-- One level with the default (empty) writer. -/
def planOneAuto : Plan :=
  { name := "p", levels := [("a", replLagLevel "a" "5s" [])], monitorId := "m1" }

/-- The repl.lag domain of the single-pfs-level plan: writer pfs, no
report-no-heartbeat option. -/
def domPfsOnly : Domain :=
  { name := DOMAIN, options := [("writer", "pfs")], metrics := [] }

/-- One level with writer pfs and no drop-policy options. -/
def planOnePfs : Plan :=
  { name := "p"
    levels := [("a", { name := "a", freq := "5s", collect := [(DOMAIN, domPfsOnly)] })]
    monitorId := "m1" }

/-- One blip level that opts into reporting not-a-replica. -/
def planBlipReport : Plan :=
  { name := "p"
    levels := [("a", replLagLevel "a" "5s" [("writer", "blip"), ("report-not-a-replica", "yes")])]
    monitorId := "m1" }

/-- Level a with repl-check x (pfs writer). -/
def lvlRCa : String × Level :=
  ("a", replLagLevel "a" "5s" [("writer", "pfs"), ("repl-check", "x")])

/-- Level b with repl-check y (pfs writer). -/
def lvlRCb : String × Level :=
  ("b", replLagLevel "b" "20s" [("writer", "pfs"), ("repl-check", "y")])

/-- The same two levels in iteration order a then b. -/
def planRCab : Plan := { name := "p", levels := [lvlRCa, lvlRCb], monitorId := "m1" }

/-- The same two levels in iteration order b then a. -/
def planRCba : Plan := { name := "p", levels := [lvlRCb, lvlRCa], monitorId := "m1" }

/-- A worker row whose last queued transaction is 90 seconds old with 500 ms
of applier latency. -/
def rowIdle90 : PfsWorkerRow :=
  { applierLatencyMs := 500, lastQueuedAnonymous := false,
    lastAppliedAnonymous := false, gtidQueuedMinusAppliedEmpty := false,
    immediateCommitAgeMs := 400, lastQueuedAgeSec := 90 }

/-- A worker row whose last queued transaction is 150 seconds old. -/
def rowIdle150 : PfsWorkerRow :=
  { applierLatencyMs := 999, lastQueuedAnonymous := false,
    lastAppliedAnonymous := false, gtidQueuedMinusAppliedEmpty := false,
    immediateCommitAgeMs := 888, lastQueuedAgeSec := 150 }

/-- The repl.lag domain value with no options. -/
def domEmpty : Domain := { name := DOMAIN, options := [], metrics := [] }

/-- The single metric this collector produces: a gauge named current. -/
def mvCurrent (v : Rat) (md : List (String × String)) : MetricValue :=
  { name := "current", typ := MetricType.gauge, value := v, meta := md }

/-- A prepared-style state whose drop-not-a-replica flag is set everywhere. -/
def stDropYes : LagState :=
  { NewLag with dropNotAReplica := fun _ => true }

/-- A state with a configured replica-check variable. -/
def stCheck : LagState :=
  { NewLag with replCheck := "rc" }

/-- A state with a configured replica-check variable and the drop flag. -/
def stCheckDrop : LagState :=
  { NewLag with replCheck := "rc", dropNotAReplica := fun _ => true }

/-! Helper lemmas about the map embedding, prepareBlip, the per-level
switch, and the preparation loop. -/

theorem setKey_self {α : Type} (m : String → α) (k : String) (v : α) : setKey m k v k = v := by
  simp [setKey]

theorem setKey_ne {α : Type} (m : String → α) (k : String) (v : α) (x : String) (h : x ≠ k) :
    setKey m k v x = m x := by
  simp [setKey, h]

/-- prepareBlip never reports an error: its error slot is none on both
paths (lag.go lines 249-251 and 289). -/
theorem prepareBlip_err (c : LagState) (ln mid pn : String) (opts : List (String × String)) :
    (prepareBlip c ln mid pn opts).2.2 = none := by
  unfold prepareBlip
  split <;> rfl

/-- After prepareBlip a reader always exists: either it already did, or the
call creates and starts it. -/
theorem prepareBlip_reader (c : LagState) (ln mid pn : String) (opts : List (String × String)) :
    (prepareBlip c ln mid pn opts).1.lagReader.isSome = true := by
  unfold prepareBlip
  split
  · assumption
  · rfl

theorem prepareBlip_dropNotAReplica (c : LagState) (ln mid pn : String)
    (opts : List (String × String)) :
    (prepareBlip c ln mid pn opts).1.dropNotAReplica = c.dropNotAReplica := by
  unfold prepareBlip
  split <;> rfl

theorem prepareBlip_replCheck (c : LagState) (ln mid pn : String)
    (opts : List (String × String)) :
    (prepareBlip c ln mid pn opts).1.replCheck = c.replCheck := by
  unfold prepareBlip
  split <;> rfl

theorem prepareBlip_dropNoHeartbeat_ne (c : LagState) (ln mid pn : String)
    (opts : List (String × String)) (x : String) (h : x ≠ ln) :
    (prepareBlip c ln mid pn opts).1.dropNoHeartbeat x = c.dropNoHeartbeat x := by
  unfold prepareBlip
  split
  · rfl
  · exact setKey_ne _ _ _ _ h

theorem prepareBlip_lagWriterIn_ne (c : LagState) (ln mid pn : String)
    (opts : List (String × String)) (x : String) (h : x ≠ ln) :
    (prepareBlip c ln mid pn opts).1.lagWriterIn x = c.lagWriterIn x := by
  unfold prepareBlip
  split
  · rfl
  · exact setKey_ne _ _ _ _ h

/-- When both queries fail the probe errors whatever the state, matching
the treatment of probe failure as a mere negative signal. -/
theorem collectPFS_error_of_fail (env : DBEnv) (hfail : probeAlwaysFails env)
    (c : LagState) (lvl : String) :
    ∃ e, collectPFS c lvl env = Except.error e := by
  unfold collectPFS
  by_cases hrc : c.replCheck = ""
  · obtain ⟨e, he⟩ := hfail.2
    simp [hrc, he]
  · obtain ⟨e, he⟩ := hfail.1 c.replCheck
    simp [hrc, he]

/-- Every successful switch either leaves the state and cleanup alone (the
performance-schema path) or hands back the prepareBlip result. -/
theorem prepareLevelStep_ok_cases (c : LagState) (ln mid pn : String) (dom : Domain)
    (env : DBEnv) (cl : CleanupFn) (c' : LagState) (cl' : CleanupFn) (w : String)
    (h : prepareLevelStep c ln mid pn dom env cl = Except.ok (c', cl', w)) :
    (c' = c ∧ cl' = cl ∧ w = LAG_WRITER_PFS)
    ∨ (c' = (prepareBlip c ln mid pn dom.options).1
       ∧ cl' = (prepareBlip c ln mid pn dom.options).2.1
       ∧ w = LAG_WRITER_BLIP) := by
  unfold prepareLevelStep at h
  split at h
  · split at h
    · exact absurd h (by simp)
    · simp only [Except.ok.injEq, Prod.mk.injEq] at h
      exact Or.inl ⟨h.1.symm, h.2.1.symm, h.2.2.symm⟩
  · split at h
    · exact absurd h (by simp)
    · rename_i c1 cl1 heq
      simp only [Except.ok.injEq, Prod.mk.injEq] at h
      refine Or.inr ⟨?_, ?_, h.2.2.symm⟩
      · rw [heq]; exact h.1.symm
      · rw [heq]; exact h.2.1.symm
  · split at h
    · simp only [Except.ok.injEq, Prod.mk.injEq] at h
      exact Or.inl ⟨h.1.symm, h.2.1.symm, h.2.2.symm⟩
    · split at h
      · rename_i c1 cl1 heq
        simp only [Except.ok.injEq, Prod.mk.injEq] at h
        refine Or.inr ⟨?_, ?_, h.2.2.symm⟩
        · rw [heq]; exact h.1.symm
        · rw [heq]; exact h.2.1.symm
      · exact absurd h (by simp)
  · split at h
    · simp only [Except.ok.injEq, Prod.mk.injEq] at h
      exact Or.inl ⟨h.1.symm, h.2.1.symm, h.2.2.symm⟩
    · split at h
      · rename_i c1 cl1 heq
        simp only [Except.ok.injEq, Prod.mk.injEq] at h
        refine Or.inr ⟨?_, ?_, h.2.2.symm⟩
        · rw [heq]; exact h.1.symm
        · rw [heq]; exact h.2.1.symm
      · exact absurd h (by simp)
  · exact absurd h (by simp)

/-- Auto or empty writer with a failing probe always takes the heartbeat
path of the switch. -/
theorem prepareLevelStep_auto_blip (c : LagState) (ln mid pn : String) (dom : Domain)
    (env : DBEnv) (cl : CleanupFn) (e : String)
    (hw : optGet dom.options OPT_WRITER = "auto" ∨ optGet dom.options OPT_WRITER = "")
    (he : collectPFS c ln env = Except.error e) :
    prepareLevelStep c ln mid pn dom env cl
      = Except.ok ((prepareBlip c ln mid pn dom.options).1,
          (prepareBlip c ln mid pn dom.options).2.1, LAG_WRITER_BLIP) := by
  rcases hpb : prepareBlip c ln mid pn dom.options with ⟨c1, cl1, err1⟩
  have herr := prepareBlip_err c ln mid pn dom.options
  rw [hpb] at herr
  simp only at herr
  subst herr
  unfold prepareLevelStep
  rcases hw with hw | hw <;> rw [hw] <;> simp [collectPFSv2, he, hpb]

/-- An explicit pfs writer whose switch succeeds leaves state and cleanup
alone. -/
theorem prepareLevelStep_pfs_state (c : LagState) (ln mid pn : String) (dom : Domain)
    (env : DBEnv) (cl : CleanupFn) (c' : LagState) (cl' : CleanupFn) (w : String)
    (hw : optGet dom.options OPT_WRITER = "pfs")
    (h : prepareLevelStep c ln mid pn dom env cl = Except.ok (c', cl', w)) :
    c' = c ∧ cl' = cl ∧ w = LAG_WRITER_PFS := by
  unfold prepareLevelStep at h
  rw [hw] at h
  simp only at h
  split at h
  · exact absurd h (by simp)
  · simp only [Except.ok.injEq, Prod.mk.injEq] at h
    exact ⟨h.1.symm, h.2.1.symm, h.2.2.symm⟩

/-- State fields a successful switch may change are confined to its level
name; replCheck and dropNotAReplica are untouched until after the switch. -/
theorem prepareLevelStep_ok_frame (c : LagState) (ln mid pn : String) (dom : Domain)
    (env : DBEnv) (cl : CleanupFn) (c' : LagState) (cl' : CleanupFn) (w : String)
    (h : prepareLevelStep c ln mid pn dom env cl = Except.ok (c', cl', w))
    (x : String) (hx : x ≠ ln) :
    c'.lagWriterIn x = c.lagWriterIn x
    ∧ c'.dropNotAReplica = c.dropNotAReplica
    ∧ c'.dropNoHeartbeat x = c.dropNoHeartbeat x
    ∧ c'.replCheck = c.replCheck := by
  rcases prepareLevelStep_ok_cases c ln mid pn dom env cl c' cl' w h with
    ⟨hc, _, _⟩ | ⟨hc, _, _⟩ <;> subst hc
  · exact ⟨rfl, rfl, rfl, rfl⟩
  · exact ⟨prepareBlip_lagWriterIn_ne c ln mid pn dom.options x hx,
      prepareBlip_dropNotAReplica c ln mid pn dom.options,
      prepareBlip_dropNoHeartbeat_ne c ln mid pn dom.options x hx,
      prepareBlip_replCheck c ln mid pn dom.options⟩

/-- The loop never touches state keyed at a level name outside its list. -/
theorem prepareLoop_frame (mid pn : String) (env : DBEnv) (levels : List (String × Level)) :
    ∀ (c : LagState) (configured : String) (cleanup : CleanupFn) (x : String),
      (∀ p ∈ levels, x ≠ p.1) →
      (prepareLoop mid pn env levels c configured cleanup).state.lagWriterIn x = c.lagWriterIn x
      ∧ (prepareLoop mid pn env levels c configured cleanup).state.dropNotAReplica x
          = c.dropNotAReplica x
      ∧ (prepareLoop mid pn env levels c configured cleanup).state.dropNoHeartbeat x
          = c.dropNoHeartbeat x := by
  induction levels with
  | nil =>
    intro c conf cl x _
    exact ⟨rfl, rfl, rfl⟩
  | cons hd rest ih =>
    intro c conf cl x hx
    obtain ⟨ln, lv⟩ := hd
    have hxl : x ≠ ln := hx (ln, lv) (List.mem_cons_self _ _)
    have hxr : ∀ p ∈ rest, x ≠ p.1 := fun p hp => hx p (List.mem_cons_of_mem _ hp)
    simp only [prepareLoop]
    cases hdom : lookupStr DOMAIN lv.collect with
    | none => exact ih c conf cl x hxr
    | some dom =>
      by_cases hconf : conf = ""
      · subst hconf
        simp only [ne_eq, not_true_eq_false, if_false]
        rcases hstep : prepareLevelStep c ln mid pn dom env cl with e | val
        · exact ⟨rfl, rfl, rfl⟩
        · obtain ⟨c', cl', w⟩ := val
          obtain ⟨hf1, hf2, hf3, _⟩ :=
            prepareLevelStep_ok_frame c ln mid pn dom env cl c' cl' w hstep x hxl
          obtain ⟨ih1, ih2, ih3⟩ := ih _ "" cl' x hxr
          refine ⟨?_, ?_, ?_⟩
          · rw [ih1]; simp only [setKey_ne _ _ _ _ hxl]; exact hf1
          · rw [ih2]; simp only [setKey_ne _ _ _ _ hxl]; rw [hf2]
          · rw [ih3]; exact hf3
      · simp only [ne_eq, hconf, not_false_eq_true, if_true]
        split
        · exact ⟨rfl, rfl, rfl⟩
        · obtain ⟨ih1, ih2, ih3⟩ := ih _ conf cl x hxr
          refine ⟨?_, ?_, ?_⟩
          · rw [ih1]; exact setKey_ne _ _ _ _ hxl
          · exact ih2
          · exact ih3

/-- Loop behavior when every qualifying level uses the auto (or empty)
writer and the probe always fails: no error, the reader exists as soon as
one level qualifies, and every qualifying level resolves to blip. -/
theorem prepareLoop_allauto (mid pn : String) (env : DBEnv)
    (hfail : probeAlwaysFails env) (levels : List (String × Level)) :
    ∀ (c : LagState) (cleanup : CleanupFn),
      (∀ p ∈ levels, ∀ dom, lookupStr DOMAIN p.2.collect = some dom →
        optGet dom.options OPT_WRITER = "auto" ∨ optGet dom.options OPT_WRITER = "") →
      (prepareLoop mid pn env levels c "" cleanup).err = none
      ∧ ((prepareLoop mid pn env levels c "" cleanup).state.lagReader.isSome
          = (c.lagReader.isSome || levels.any fun p => (lookupStr DOMAIN p.2.collect).isSome))
      ∧ (∀ x, (prepareLoop mid pn env levels c "" cleanup).state.lagWriterIn x = c.lagWriterIn x
          ∨ (prepareLoop mid pn env levels c "" cleanup).state.lagWriterIn x = LAG_WRITER_BLIP)
      ∧ (∀ p ∈ levels, (lookupStr DOMAIN p.2.collect).isSome →
          (prepareLoop mid pn env levels c "" cleanup).state.lagWriterIn p.1 = LAG_WRITER_BLIP) := by
  induction levels with
  | nil =>
    intro c cleanup _
    refine ⟨rfl, by simp [prepareLoop], fun x => Or.inl rfl, fun p hp => absurd hp (by simp)⟩
  | cons hd rest ih =>
    intro c cleanup hauto
    obtain ⟨ln, lv⟩ := hd
    have hautor : ∀ p ∈ rest, ∀ dom, lookupStr DOMAIN p.2.collect = some dom →
        optGet dom.options OPT_WRITER = "auto" ∨ optGet dom.options OPT_WRITER = "" :=
      fun p hp => hauto p (List.mem_cons_of_mem _ hp)
    simp only [prepareLoop]
    cases hdom : lookupStr DOMAIN lv.collect with
    | none =>
      obtain ⟨ih1, ih2, ih3, ih4⟩ := ih c cleanup hautor
      refine ⟨ih1, ?_, ih3, ?_⟩
      · rw [ih2]; simp [hdom]
      · intro p hp hps
        rcases List.mem_cons.mp hp with hp | hp
        · rw [hp] at hps; simp only at hps; rw [hdom] at hps; exact absurd hps (by simp)
        · exact ih4 p hp hps
    | some dom =>
      have hw := hauto (ln, lv) (List.mem_cons_self _ _) dom hdom
      obtain ⟨e, he⟩ := collectPFS_error_of_fail env hfail c ln
      have hstep := prepareLevelStep_auto_blip c ln mid pn dom env cleanup e hw he
      simp only [ne_eq, not_true_eq_false, if_false, hstep]
      have hreader := prepareBlip_reader c ln mid pn dom.options
      obtain ⟨ih1, ih2, ih3, ih4⟩ := ih _ ((prepareBlip c ln mid pn dom.options).2.1) hautor
      refine ⟨ih1, ?_, ?_, ?_⟩
      · rw [ih2]
        dsimp only
        rw [hreader]
        simp [hdom]
      · intro x
        rcases ih3 x with hx | hx
        · rw [hx]
          dsimp only
          by_cases hxl : x = ln
          · subst hxl
            right
            exact setKey_self _ _ _
          · rw [setKey_ne _ _ _ _ hxl]
            exact Or.inl (prepareBlip_lagWriterIn_ne c ln mid pn dom.options x hxl)
        · exact Or.inr hx
      · intro p hp hps
        rcases List.mem_cons.mp hp with hp | hp
        · subst hp
          rcases ih3 ln with hx | hx
          · rw [hx]
            dsimp only
            exact setKey_self _ _ _
          · exact hx
        · exact ih4 p hp hps

/-- On success the loop records each qualifying level's report-not-a-replica
flag from that level's own options, and an explicit pfs level never touches
its dropNoHeartbeat entry. -/
theorem prepareLoop_records (mid pn : String) (env : DBEnv) (levels : List (String × Level)) :
    ∀ (c : LagState) (cleanup : CleanupFn),
      (levels.map Prod.fst).Nodup →
      (prepareLoop mid pn env levels c "" cleanup).err = none →
      ∀ ln lv, (ln, lv) ∈ levels → ∀ dom, lookupStr DOMAIN lv.collect = some dom →
        ((prepareLoop mid pn env levels c "" cleanup).state.dropNotAReplica ln
            = !blipBool (optGet dom.options OPT_REPORT_NOT_A_REPLICA))
        ∧ (optGet dom.options OPT_WRITER = "pfs" →
            (prepareLoop mid pn env levels c "" cleanup).state.dropNoHeartbeat ln
              = c.dropNoHeartbeat ln) := by
  induction levels with
  | nil =>
    intro c cleanup _ _ ln lv hmem
    exact absurd hmem (by simp)
  | cons hd rest ih =>
    intro c cleanup hnodup herr ln lv hmem dom hdomln
    obtain ⟨hn, hv⟩ := hd
    have hnodup2 : (∀ x : Level, (hn, x) ∉ rest) ∧ (rest.map Prod.fst).Nodup := by
      simpa using hnodup
    have hnd1 : ∀ p ∈ rest, hn ≠ p.1 := by
      intro p hp hcontra
      refine hnodup2.1 p.2 ?_
      rw [hcontra]
      exact hp
    have hnd2 : (rest.map Prod.fst).Nodup := hnodup2.2
    simp only [prepareLoop] at herr ⊢
    cases hdom0 : lookupStr DOMAIN hv.collect with
    | none =>
      rw [hdom0] at herr
      rcases List.mem_cons.mp hmem with hp | hp
      · injection hp with hp1 hp2
        subst hp1; subst hp2
        rw [hdom0] at hdomln
        exact absurd hdomln (by simp)
      · exact ih c cleanup hnd2 herr ln lv hp dom hdomln
    | some hdom =>
      rw [hdom0] at herr
      simp only [ne_eq, not_true_eq_false, if_false] at herr ⊢
      rcases hstep : prepareLevelStep c hn mid pn hdom env cleanup with e | val
      · rw [hstep] at herr
        simp at herr
      · obtain ⟨c', cl', w⟩ := val
        rw [hstep] at herr
        dsimp only at herr ⊢
        rcases List.mem_cons.mp hmem with hp | hp
        · injection hp with hp1 hp2
          subst hp1; subst hp2
          rw [hdom0] at hdomln
          injection hdomln with hdomeq
          subst hdomeq
          obtain ⟨hf1, hf2, hf3⟩ := prepareLoop_frame mid pn env rest _ "" cl' ln hnd1
          constructor
          · rw [hf2]
            dsimp only
            exact setKey_self _ _ _
          · intro hwpfs
            rw [hf3]
            dsimp only
            obtain ⟨hc, _, _⟩ :=
              prepareLevelStep_pfs_state c ln mid pn hdom env cleanup c' cl' w hwpfs hstep
            rw [hc]
        · have hlnn : ln ≠ hn := by
            intro hcontra
            exact hnd1 (ln, lv) hp (by rw [hcontra])
          obtain ⟨ihrec, ihpfs⟩ := ih _ cl' hnd2 herr ln lv hp dom hdomln
          refine ⟨ihrec, ?_⟩
          intro hwpfs
          rw [ihpfs hwpfs]
          dsimp only
          obtain ⟨_, _, hfd, _⟩ :=
            prepareLevelStep_ok_frame c hn mid pn hdom env cleanup c' cl' w hstep ln hlnn
          exact hfd

/-! The claims. -/

/-- C1: the claim says that when the repl.lag domain appears in two levels
whose writer options resolve to different explicit values, Prepare returns
a configuration-conflict error, does not succeed, and leaves no background
sampler running. Evaluating the code at such a plan (level a explicit pfs,
level b explicit blip, probe succeeding) shows the opposite: Prepare
returns no error, records pfs for a and blip for b simultaneously, and
leaves the heartbeat sampler running — the loop variable `configured` of
lag.go line 169 is never assigned, so the conflict check at lines 185-191
is unreachable, contradicting Prepare's own doc comment ("this domain can
be configured at only one level"). -/
theorem C1_mixed_writers_prepare_succeeds :
    (Prepare NewLag planMixedWriters envPfsOk).err = none
    ∧ (Prepare NewLag planMixedWriters envPfsOk).state.lagWriterIn "a" = LAG_WRITER_PFS
    ∧ (Prepare NewLag planMixedWriters envPfsOk).state.lagWriterIn "b" = LAG_WRITER_BLIP
    ∧ samplerRunning (Prepare NewLag planMixedWriters envPfsOk).state = true := by
  decide

/-- C2 counterexample: the claim says that with an auto (or empty) writer,
a failing performance-schema probe and no establishable heartbeat strategy
(here: no heartbeat table exists at all), Prepare returns an error whose
message mentions auto-detect and no sampler runs. In the code prepareBlip
never fails and never consults the table, so at this concrete input the
probe fails (every query errors), no heartbeat table exists, and yet
Prepare returns no error and a sampler IS running. -/
theorem C2_counterexample :
    envAllFail.heartbeatTableExists = false
    ∧ (∃ e, collectPFSv2 NewLag "a" envAllFail = Except.error e)
    ∧ (Prepare NewLag planOneAuto envAllFail).err = none
    ∧ samplerRunning (Prepare NewLag planOneAuto envAllFail).state = true := by
  exact ⟨rfl, ⟨_, rfl⟩, by decide, by decide⟩

/-- C2 amended: for every plan whose qualifying levels all use the auto (or
empty) writer, against every target where the performance-schema probe
always fails, Prepare returns no error (whether or not a heartbeat table
exists — prepareBlip cannot fail, so the auto-detect error branch is
unreachable); a background sampler is running after Prepare returns exactly
when some level qualifies, and every qualifying level's resolved writer is
the heartbeat strategy. -/
theorem C2_auto_probe_fail_prepares_blip (plan : Plan) (env : DBEnv)
    (hfail : probeAlwaysFails env)
    (hauto : ∀ p ∈ plan.levels, ∀ dom, lookupStr DOMAIN p.2.collect = some dom →
      optGet dom.options OPT_WRITER = "auto" ∨ optGet dom.options OPT_WRITER = "") :
    (Prepare NewLag plan env).err = none
    ∧ (samplerRunning (Prepare NewLag plan env).state
        = plan.levels.any fun p => (lookupStr DOMAIN p.2.collect).isSome)
    ∧ ∀ p ∈ plan.levels, (lookupStr DOMAIN p.2.collect).isSome →
        (Prepare NewLag plan env).state.lagWriterIn p.1 = LAG_WRITER_BLIP := by
  unfold Prepare samplerRunning
  obtain ⟨h1, h2, _, h4⟩ :=
    prepareLoop_allauto plan.monitorId plan.name env hfail plan.levels NewLag CleanupFn.nil hauto
  refine ⟨h1, ?_, h4⟩
  rw [h2]
  rfl

/-- C2 witness: the amended statement at the single-auto-level plan against
the all-failing target. -/
theorem C2_auto_probe_fail_prepares_blip_witness :
    probeAlwaysFails envAllFail
    ∧ (Prepare NewLag planOneAuto envAllFail).err = none
    ∧ (samplerRunning (Prepare NewLag planOneAuto envAllFail).state
        = planOneAuto.levels.any fun p => (lookupStr DOMAIN p.2.collect).isSome)
    ∧ ∀ p ∈ planOneAuto.levels, (lookupStr DOMAIN p.2.collect).isSome →
        (Prepare NewLag planOneAuto envAllFail).state.lagWriterIn p.1 = LAG_WRITER_BLIP := by
  have hfail : probeAlwaysFails envAllFail :=
    ⟨fun s => ⟨"connection refused", rfl⟩, ⟨"connection refused", rfl⟩⟩
  have hauto : ∀ p ∈ planOneAuto.levels, ∀ dom,
      lookupStr DOMAIN p.2.collect = some dom →
      optGet dom.options OPT_WRITER = "auto" ∨ optGet dom.options OPT_WRITER = "" := by
    intro p hp dom hdom
    rcases List.mem_cons.mp hp with h | h
    · subst h
      have hd : some domEmpty = some dom := by rw [← hdom]; rfl
      injection hd with hd
      right
      rw [← hd]
      rfl
    · exact absurd h (by simp)
  obtain ⟨h1, h2, h3⟩ := C2_auto_probe_fail_prepares_blip planOneAuto envAllFail hfail hauto
  exact ⟨hfail, h1, h2, h3⟩

/-- C3: the claim says that with two levels both requesting writer blip,
Prepare succeeds, one sampling task is created for the whole plan, and the
cleanup Prepare returns is the single shared stop action. Evaluating the
code: Prepare succeeds and exactly one reader is created (from level a's
options — its table is t1), but the returned cleanup is nil, because the
second prepareBlip call returns a nil cleanup (lag.go line 250) which
overwrites the stop function in `cleanup, err = c.prepareBlip(...)` — a
consequence of the same unassigned `configured` variable as C1 (with the
conflict logic working, the second level would skip the switch). The
started reader can then never be stopped. -/
theorem C3_two_blip_levels_cleanup_lost :
    (Prepare NewLag planTwoBlip envPfsOk).err = none
    ∧ (Prepare NewLag planTwoBlip envPfsOk).state.lagReader
        = some { monitorId := "m1", table := "t1", sourceId := "", sourceRole := "",
                 replCheck := "", networkLatencyMs := 50 }
    ∧ (Prepare NewLag planTwoBlip envPfsOk).state.lagWriterIn "a" = LAG_WRITER_BLIP
    ∧ (Prepare NewLag planTwoBlip envPfsOk).state.lagWriterIn "b" = LAG_WRITER_BLIP
    ∧ (Prepare NewLag planTwoBlip envPfsOk).cleanup = CleanupFn.nil := by
  decide

/-- C4 counterexample: the claim says Prepare records each qualifying
level's report-no-heartbeat flag from that level's own options regardless
of writer. For the single pfs level (no report-no-heartbeat option),
recording from its own options would store the negated default, true; the
code stores nothing and the map stays false: the flag is only written
inside prepareBlip, which a pfs level never calls. -/
theorem C4_counterexample :
    (Prepare NewLag planOnePfs envPfsOk).err = none
    ∧ (Prepare NewLag planOnePfs envPfsOk).state.dropNoHeartbeat "a" = false
    ∧ (!blipBool (optGet domPfsOnly.options OPT_REPORT_NO_HEARTBEAT)) = true := by
  decide

/-- C4 amended: on a successful Prepare over distinct level names, every
level that collects repl.lag records its report-not-a-replica flag from its
own options (independently of writer and of the other levels); the
report-no-heartbeat flag is not recorded per level — a level with explicit
writer pfs leaves its entry at the initial (false) value, the flag being
written only on the reader-creating prepareBlip path. -/
theorem C4_drop_flags_recording (plan : Plan) (env : DBEnv)
    (hnodup : (plan.levels.map Prod.fst).Nodup)
    (herr : (Prepare NewLag plan env).err = none)
    (ln : String) (lv : Level) (hmem : (ln, lv) ∈ plan.levels)
    (dom : Domain) (hdom : lookupStr DOMAIN lv.collect = some dom) :
    ((Prepare NewLag plan env).state.dropNotAReplica ln
        = !blipBool (optGet dom.options OPT_REPORT_NOT_A_REPLICA))
    ∧ (optGet dom.options OPT_WRITER = "pfs" →
        (Prepare NewLag plan env).state.dropNoHeartbeat ln = false) := by
  unfold Prepare at herr ⊢
  have h := prepareLoop_records plan.monitorId plan.name env plan.levels NewLag CleanupFn.nil
    hnodup herr ln lv hmem dom hdom
  exact ⟨h.1, fun hw => h.2 hw⟩

/-- C4 witness: the amended statement at the single-pfs-level plan. -/
theorem C4_drop_flags_recording_witness :
    (planOnePfs.levels.map Prod.fst).Nodup
    ∧ (Prepare NewLag planOnePfs envPfsOk).err = none
    ∧ ((Prepare NewLag planOnePfs envPfsOk).state.dropNotAReplica "a"
        = !blipBool (optGet domPfsOnly.options OPT_REPORT_NOT_A_REPLICA))
    ∧ (Prepare NewLag planOnePfs envPfsOk).state.dropNoHeartbeat "a" = false := by
  have h := C4_drop_flags_recording planOnePfs envPfsOk (by decide) (by decide) "a"
    { name := "a", freq := "5s", collect := [(DOMAIN, domPfsOnly)] }
    (by decide) domPfsOnly (by decide)
  exact ⟨by decide, by decide, h.1, h.2 (by decide)⟩

/-- C5 counterexample: the claim says that with report-not-a-replica=yes
and a non-replica sample, Collect returns exactly one gauge valued -1. At
the prepared blip level with a non-replica sample reporting 7 ms, Collect
returns one gauge valued 7 (the sample's milliseconds), not -1: collectBlip
reports lag.Milliseconds unconditionally. -/
theorem C5_counterexample :
    (Prepare NewLag planBlipReport envNotReplica).err = none
    ∧ blipBool (optGet [("writer", "blip"), ("report-not-a-replica", "yes")]
        OPT_REPORT_NOT_A_REPLICA) = true
    ∧ Collect (Prepare NewLag planBlipReport envNotReplica).state "a" envNotReplica
        = CollectResult.ok [mvCurrent 7 [("source", "s1")]]
    ∧ ((7 : Rat) ≠ -1) := by
  decide

/-- C5 amended: with a non-replica sample and report-not-a-replica unset or
no (drop flag true), Collect returns zero metrics and no error under either
strategy; with report-not-a-replica=yes (drop flag false), the
performance-schema strategy returns exactly one gauge valued -1, while the
heartbeat strategy returns exactly one gauge whose value is the sample's
reported milliseconds with its source id attached. -/
theorem C5_not_a_replica_drop_policy (c : LagState) (levelName : String) (env : DBEnv)
    (s : HeartbeatSample) :
    (env.readerLag = Except.ok s → s.replica = false →
      ((c.dropNotAReplica levelName = true → collectBlip c levelName env = Except.ok [])
       ∧ (c.dropNotAReplica levelName = false →
            collectBlip c levelName env
              = Except.ok [mvCurrent (s.milliseconds : Rat) [("source", s.sourceId)]])))
    ∧ (∀ r : Int, c.replCheck ≠ "" → env.replCheckQuery c.replCheck = Except.ok r → r = 0 →
        ((c.dropNotAReplica levelName = true → collectPFS c levelName env = Except.ok [])
         ∧ (c.dropNotAReplica levelName = false →
              collectPFS c levelName env = Except.ok [mvCurrent (-1) []]))) := by
  constructor
  · intro hlag hrep
    constructor
    · intro hdrop
      unfold collectBlip
      rw [hlag]
      simp [hrep, hdrop, mvCurrent]
    · intro hdrop
      unfold collectBlip
      rw [hlag]
      simp [hrep, hdrop, mvCurrent]
  · intro r hrc hq hr
    constructor
    · intro hdrop
      unfold collectPFS
      simp [hrc, hq, hr, hdrop]
    · intro hdrop
      unfold collectPFS
      simp [hrc, hq, hr, hdrop, mvCurrent]

/-- C5 witness: the four drop-policy cases at concrete states, the
non-replica 7 ms sample, and the not-a-replica check. -/
theorem C5_not_a_replica_drop_policy_witness :
    (collectBlip stDropYes "a" envNotReplica = Except.ok [])
    ∧ (collectBlip NewLag "a" envNotReplica
        = Except.ok [mvCurrent (sampleNotReplica.milliseconds : Rat)
            [("source", sampleNotReplica.sourceId)]])
    ∧ (collectPFS stCheckDrop "a" envRepl0 = Except.ok [])
    ∧ (collectPFS stCheck "a" envRepl0 = Except.ok [mvCurrent (-1) []]) := by
  refine ⟨?_, ?_, ?_, ?_⟩
  · exact ((C5_not_a_replica_drop_policy stDropYes "a" envNotReplica sampleNotReplica).1
      rfl rfl).1 rfl
  · exact ((C5_not_a_replica_drop_policy NewLag "a" envNotReplica sampleNotReplica).1
      rfl rfl).2 rfl
  · exact ((C5_not_a_replica_drop_policy stCheckDrop "a" envRepl0 sampleNotReplica).2
      0 (by decide) rfl rfl).1 rfl
  · exact ((C5_not_a_replica_drop_policy stCheck "a" envRepl0 sampleNotReplica).2
      0 (by decide) rfl rfl).2 rfl

/-- C6: in the performance-schema strategy, when a replica-check variable
is configured and reports the instance is a replica (non-zero) but the lag
query returns SQL NULL, Collect surfaces a hard error; with no replica
check configured, the same NULL result is treated as not-a-replica and
handled by the drop/sentinel policy. -/
theorem C6_pfs_null_inconsistency (c : LagState) (levelName : String) (env : DBEnv) :
    (∀ r : Int, c.replCheck ≠ "" → env.replCheckQuery c.replCheck = Except.ok r → r ≠ 0 →
      env.lagQuery = Except.ok none →
      collectPFS c levelName env
        = Except.error "cannot determine replica lag because performance_schema.replication_applier_status_by_worker returned an invalid value (expected a positive integer value)")
    ∧ (c.replCheck = "" → env.lagQuery = Except.ok none →
        collectPFS c levelName env
          = Except.ok (if c.dropNotAReplica levelName then [] else [mvCurrent (-1) []])) := by
  constructor
  · intro r hrc hq hr hnull
    unfold collectPFS
    simp [hrc, hq, hr, hnull]
  · intro hrc hnull
    unfold collectPFS
    simp [hrc, hnull, mvCurrent]

/-- C6 witness: both branches at concrete states against the NULL-lag
target. -/
theorem C6_pfs_null_inconsistency_witness :
    (collectPFS stCheck "a" envNullLag
       = Except.error "cannot determine replica lag because performance_schema.replication_applier_status_by_worker returned an invalid value (expected a positive integer value)")
    ∧ (collectPFS NewLag "a" envNullLag
       = Except.ok (if NewLag.dropNotAReplica "a" then [] else [mvCurrent (-1) []])) := by
  exact ⟨(C6_pfs_null_inconsistency stCheck "a" envNullLag).1 1 (by decide) rfl (by decide) rfl,
    (C6_pfs_null_inconsistency NewLag "a" envNullLag).2 rfl rfl⟩

/-- C7: running InterpolateEnvVars (substitution f) and then
InterpolateMonitor (substitution g) rewrites every option value of every
domain in every level exactly once each — the result is the plan whose
option values are g (f v) — and leaves every other field unchanged: the
plan name, the level keys, and (inside the equality) each level's name,
frequency and collect keys, and each domain's name and metrics list. -/
theorem C7_interpolate_exactly_once (f g : String → String) (p : Plan) :
    (Plan.InterpolateMonitor g (Plan.InterpolateEnvVars f p)
      = { p with
          levels := p.levels.map fun lv =>
            (lv.1,
              { lv.2 with
                collect := lv.2.collect.map fun dm =>
                  (dm.1,
                    { dm.2 with
                      options := dm.2.options.map fun kv => (kv.1, g (f kv.2)) }) }) })
    ∧ (Plan.InterpolateMonitor g (Plan.InterpolateEnvVars f p)).name = p.name
    ∧ (Plan.InterpolateMonitor g (Plan.InterpolateEnvVars f p)).levels.map Prod.fst
        = p.levels.map Prod.fst := by
  refine ⟨?_, ?_, ?_⟩
  · simp [Plan.InterpolateMonitor, Plan.InterpolateEnvVars, List.map_map, Function.comp]
  · rfl
  · simp [Plan.InterpolateMonitor, Plan.InterpolateEnvVars, List.map_map, Function.comp]

/-- C8: calling Collect for a level whose recorded writer is neither blip
nor pfs — including the zero value returned for any level name Prepare
never recorded — is a panic, not an error return. -/
theorem C8_collect_unknown_writer_panics (c : LagState) (levelName : String) (env : DBEnv)
    (hb : c.lagWriterIn levelName ≠ LAG_WRITER_BLIP)
    (hp : c.lagWriterIn levelName ≠ LAG_WRITER_PFS) :
    Collect c levelName env
      = CollectResult.panicked
          ("invalid lag writer in Collect " ++ c.lagWriterIn levelName
            ++ " in level " ++ levelName) := by
  unfold Collect
  split
  · exact absurd (by assumption) hb
  · exact absurd (by assumption) hp
  · rfl

/-- C8 witness: a level name the fresh collector never saw panics. -/
theorem C8_collect_unknown_writer_panics_witness :
    NewLag.lagWriterIn "q" ≠ LAG_WRITER_BLIP
    ∧ NewLag.lagWriterIn "q" ≠ LAG_WRITER_PFS
    ∧ Collect NewLag "q" envPfsOk
        = CollectResult.panicked
            ("invalid lag writer in Collect " ++ NewLag.lagWriterIn "q"
              ++ " in level " ++ "q") := by
  exact ⟨by decide, by decide,
    C8_collect_unknown_writer_panics NewLag "q" envPfsOk (by decide) (by decide)⟩

/-- C9 counterexample: the claim says a last queued transaction older than
one minute makes the reported lag exactly 0. At a row 90 seconds old
(older than one minute) with 500 ms applier latency, the query reports
500, not 0: the idle test is TIMESTAMPDIFF(MINUTE,...) > 1, i.e. at least
two whole minutes. -/
theorem C9_counterexample :
    rowIdle90.lastQueuedAgeSec > 60
    ∧ mySQL8LagMs rowIdle90 = 500
    ∧ ((500 : Int) ≠ 0) := by
  decide

/-- C9 amended: when the most recently queued transaction is at least two
minutes old (so its whole-minute age exceeds 1 and the channel is
classified IDLE), the reported lag is exactly 0 regardless of the computed
applier and queue latencies. -/
theorem C9_idle_channel_zero (r : PfsWorkerRow) (h : 120 ≤ r.lastQueuedAgeSec) :
    mySQL8LagMs r = 0 := by
  unfold mySQL8LagMs timestampdiffMinute
  rw [if_pos (by omega)]

/-- C9 witness: the amended statement at a 150-second-old row with nonzero
latencies. -/
theorem C9_idle_channel_zero_witness :
    120 ≤ rowIdle150.lastQueuedAgeSec ∧ mySQL8LagMs rowIdle150 = 0 :=
  ⟨by decide, C9_idle_channel_zero rowIdle150 (by decide)⟩

/-- C10: the replica-check expression lives in the single shared replCheck
field and every qualifying level overwrites it during Prepare, so the value
Collect uses is the one from whichever qualifying level the unordered
iteration processed last: the two plans below are permutations of the same
level map (same name, same monitor), both Prepare successfully, yet the
final replCheck is y in one order and x in the other — and Collect on the
very same level name a then returns different results against the same
target, so Prepare's resulting state is not a deterministic function of
the plan. -/
theorem C10_replcheck_last_level_wins :
    planRCab.levels.Perm planRCba.levels
    ∧ planRCab.name = planRCba.name
    ∧ planRCab.monitorId = planRCba.monitorId
    ∧ (Prepare NewLag planRCab envReplXY).err = none
    ∧ (Prepare NewLag planRCba envReplXY).err = none
    ∧ (Prepare NewLag planRCab envReplXY).state.replCheck = "y"
    ∧ (Prepare NewLag planRCba envReplXY).state.replCheck = "x"
    ∧ Collect (Prepare NewLag planRCab envReplXY).state "a" envReplXY = CollectResult.ok []
    ∧ Collect (Prepare NewLag planRCba envReplXY).state "a" envReplXY
        = CollectResult.ok [mvCurrent 42 []] := by
  decide

end Blip
